import Mathlib

/-!
# Verification of the code-pattern storage core (`enhanced_code_storage.py`)

Shallow embedding of the Pattern Record Lifecycle Engine:
`CodeQualityAnalyzer.calculate_cyclomatic_complexity`,
`CodeQualityAnalyzer.calculate_doc_coverage`,
`EnhancedCodeStorage.store_code_pattern` and
`EnhancedCodeStorage.find_similar_code`.

Modelling conventions:
* Python `float` values (ratings, coverage) are embedded as `ℚ`; the ratios
  that occur here are exact small-integer fractions.
* Regex counting (`re.findall`) is embedded by explicit left-to-right scanners
  over `List Char`; each scanner's doc comment records why it agrees with the
  regex it embeds.
* `str.lower` is embedded character-wise (`Char.toLower`), an ASCII model that
  agrees with Python on all ASCII text.
* The record field `version_info.updated_at` (`datetime.now()`) is a wall-clock
  value and is not modelled; no claim mentions it.
-/

namespace CoderDb

/-- A word character in the sense of the regex class `\w` (ASCII model):
letters, digits and underscore. -/
def isWordChar (c : Char) : Bool := c.isAlphanum || c == '_'

/-- A whitespace character in the sense of the regex class `\s` (ASCII model):
space, tab, newline, carriage return, vertical tab, form feed. -/
def isSpaceChar (c : Char) : Bool :=
  c == ' ' || c == '\t' || c == '\n' || c == '\r' ||
  c == Char.ofNat 11 || c == Char.ofNat 12

/-- The `\b` condition on the left of a match, given the character standing
immediately before the current position (`none` at the start of the text). -/
def boundaryOk : Option Char → Bool
  | none => true
  | some c => !isWordChar c

/-- Does the keyword stand at the head of `s`, followed by a word boundary
(end of text or a non-word character)?  This is `kw\b` anchored at the
current position. -/
def wordAt : List Char → List Char → Bool
  | [], [] => true
  | [], c :: _ => !isWordChar c
  | _ :: _, [] => false
  | k :: ks, c :: cs => k == c && wordAt ks cs

/-- Scanner for `len(re.findall(r'\bkw\b', code))` with `kw` a word made of
word characters: it counts the positions at which `kw` occurs delimited by
word boundaries, threading the previous character for the left `\b` test.
Distinct whole-word occurrences of the same keyword can never overlap
(every character of `kw` is a word character, so no boundary can fall inside
an occurrence), hence counting all matching positions equals the number of
non-overlapping matches found by `re.findall`. -/
def countWordFrom (kw : List Char) : Option Char → List Char → Nat
  | _, [] => 0
  | prev, c :: cs =>
    (if boundaryOk prev && wordAt kw (c :: cs) then 1 else 0) +
      countWordFrom kw (some c) cs

/-- `len(re.findall(r'\bkw\b', code))`. -/
def countWordOccurrences (kw code : String) : Nat :=
  countWordFrom kw.data none code.data

/-- The fixed list `control_statements` of
`CodeQualityAnalyzer.calculate_cyclomatic_complexity` (each entry stands for
the regex `\bkw\b`). -/
def control_statements : List String :=
  ["if", "elif", "else", "for", "while", "with", "try", "except"]

/-- Character-wise `str.lower` (ASCII model). -/
def pyLower (s : String) : String := String.mk (s.data.map Char.toLower)

/-- `CodeQualityAnalyzer.calculate_cyclomatic_complexity`: for
`language.lower() == "python"`, start from `complexity = 1` and add
`len(re.findall(statement, code))` for each control-flow keyword; for any
other language tag return the constant `1`. -/
def calculate_cyclomatic_complexity (code : String) (language : String) : Nat :=
  if pyLower language = "python" then
    control_statements.foldl (fun acc kw => acc + countWordOccurrences kw code) 1
  else
    1

/-- Scanner for the number of non-overlapping occurrences of a literal token,
scanning left to right and consuming each match — `re.findall` semantics for
a literal pattern.  The fuel argument makes the recursion structural; every
step consumes at least one character, so fuel `s.length` is always enough. -/
def countTokenAux (tok : List Char) : Nat → List Char → Nat
  | 0, _ => 0
  | _, [] => 0
  | fuel + 1, c :: cs =>
    if tok.isPrefixOf (c :: cs) then
      1 + countTokenAux tok fuel (List.drop (tok.length - 1) cs)
    else
      countTokenAux tok fuel cs

/-- Number of non-overlapping occurrences of a literal token in `s`. -/
def countTokenFrom (tok s : List Char) : Nat :=
  countTokenAux tok s.length s

/-- `len(re.findall(r'"""[\s\S]*?"""', code))` (and the `'''` variant): the
lazy regex pairs consecutive triple-quote tokens left to right — the first
token found opens a span, the next one closes it, and scanning resumes after
the closing token.  So the number of matches is half (rounded down) of the
number of non-overlapping triple-quote tokens found by a left-to-right scan. -/
def countTripleQuoted (q : Char) (code : String) : Nat :=
  countTokenFrom [q, q, q] code.data / 2

/-- The rest of the definition-site regexes after the leading keyword:
`\s+\w+\s*X` where `X` is drawn from `lastChars` (`(` for `def`, `:` or `(`
for `class`).  The classes `\s` and `\w` are disjoint and contain neither
`(` nor `:`, so the greedy backtracking parse of the regex is deterministic
and equals maximal-munch runs. -/
def tailMatch (lastChars : List Char) (s : List Char) : Bool :=
  match s with
  | [] => false
  | c :: cs =>
    isSpaceChar c &&
    (match List.dropWhile isSpaceChar cs with
     | [] => false
     | d :: ds =>
       isWordChar d &&
       (match List.dropWhile isSpaceChar (List.dropWhile isWordChar ds) with
        | [] => false
        | e :: _ => lastChars.contains e))

/-- Does `\bkw\s+\w+\s*[lastChars]` match at the current position? -/
def defSiteAt (kw lastChars : List Char) (prev : Option Char) (s : List Char) : Bool :=
  boundaryOk prev && kw.isPrefixOf s && tailMatch lastChars (List.drop kw.length s)

/-- Counts the positions at which the definition-site regex matches.  Two
matches of `\bdef\s+\w+\s*\(` (resp. the `class` variant) can never overlap:
inside a match, a new `\bdef` could only start at the `\w+` component, and
the tail required after it cannot be satisfied there — so counting all
matching positions equals the `re.findall` count. -/
def countSitesFrom (kw lastChars : List Char) : Option Char → List Char → Nat
  | _, [] => 0
  | prev, c :: cs =>
    (if defSiteAt kw lastChars prev (c :: cs) then 1 else 0) +
      countSitesFrom kw lastChars (some c) cs

/-- `len(re.findall(r'\bdef\s+\w+\s*\(', code))`. -/
def count_def_sites (code : String) : Nat :=
  countSitesFrom "def".data ['('] none code.data

/-- `len(re.findall(r'\bclass\s+\w+\s*[:\(]', code))`. -/
def count_class_sites (code : String) : Nat :=
  countSitesFrom "class".data [':', '('] none code.data

/-- The `docstring_count` of `calculate_doc_coverage`: triple-double-quoted
spans plus triple-single-quoted spans. -/
def docstring_count (code : String) : Nat :=
  countTripleQuoted '"' code + countTripleQuoted '\'' code

/-- The `total_definitions` of `calculate_doc_coverage`. -/
def total_definitions (code : String) : Nat :=
  count_def_sites code + count_class_sites code

/-- `CodeQualityAnalyzer.calculate_doc_coverage`: for
`language.lower() == "python"`, return `1.0` when there are no definition
sites and `min(1.0, docstring_count / total_definitions)` otherwise; for any
other language tag return the constant `0.5`. -/
def calculate_doc_coverage (code : String) (language : String) : ℚ :=
  if pyLower language = "python" then
    if total_definitions code = 0 then 1
    else min 1 ((docstring_count code : ℚ) / (total_definitions code : ℚ))
  else
    1 / 2

/-- The complexity-level branch of `store_code_pattern` (lines 164–171):
keep a caller-supplied level verbatim; otherwise classify the score with the
fixed thresholds 5 and 10. -/
def resolveComplexityLevel (complexity_level : Option String)
    (cyclomatic_complexity : Nat) : String :=
  match complexity_level with
  | some lvl => lvl
  | none =>
    if cyclomatic_complexity ≤ 5 then "simple"
    else if cyclomatic_complexity ≤ 10 then "intermediate"
    else "advanced"

/-- Round to the nearest integer, ties to even — the rounding mode of
Python's built-in `round`. -/
def roundHalfEven (q : ℚ) : ℤ :=
  let f := ⌊q⌋
  let r := q - (f : ℚ)
  if r < 1 / 2 then f
  else if 1 / 2 < r then f + 1
  else if f % 2 = 0 then f else f + 1

/-- `round(x, 2)`: round to two decimal places, ties to even. -/
def round2 (q : ℚ) : ℚ := (roundHalfEven (q * 100) : ℚ) / 100

/-- Character-wise `str.replace(' ', '_')` (a single-character pattern, so
`replace` is exactly a character substitution). -/
def replaceSpaceWithUnderscore (s : String) : String :=
  String.mk (s.data.map fun c => if c == ' ' then '_' else c)

/-- The identity assignment of `store_code_pattern` (line 199):
`f"{name.lower().replace(' ', '_')}_{version}"`. -/
def assign_id (name : String) (version : Int) : String :=
  replaceSpaceWithUnderscore (pyLower name) ++ "_" ++ toString version

/-- The metadata envelope built by `store_code_pattern` (the `information`
dict, flattened; `updated_at` is not modelled).  `user_rating` is `none`
exactly when the key is absent from the dict. -/
structure CodePatternRecord where
  name : String
  language : String
  code : String
  explanation : String
  tags : List String
  complexity_level : String
  dependencies : List String
  cyclomatic_complexity : Nat
  documentation_coverage : ℚ
  version : Int
  previous_version_id : Option String
  change_log : Option String
  user_rating : Option ℚ
  id : String
deriving DecidableEq

/-- `EnhancedCodeStorage.store_code_pattern` (lines 113–204).  It computes
the quality metrics, resolves the complexity level, and unconditionally
returns the populated record: the source contains no version-chain or rating
validation and no failure path.  `tags or []` and `dependencies or []`
coincide with `Option.getD` on lists (the empty list is Python-falsy and is
replaced by the empty list). -/
def store_code_pattern
    (name : String) (code : String) (explanation : String) (language : String)
    (tags : Option (List String)) (complexity_level : Option String)
    (dependencies : Option (List String)) (user_rating : Option ℚ)
    (version : Int) (previous_version_id : Option String)
    (change_log : Option String) : CodePatternRecord :=
  let cyclomatic_complexity := calculate_cyclomatic_complexity code language
  let doc_coverage := calculate_doc_coverage code language
  let level := resolveComplexityLevel complexity_level cyclomatic_complexity
  { name := name
    language := language
    code := code
    explanation := explanation
    tags := tags.getD []
    complexity_level := level
    dependencies := dependencies.getD []
    cyclomatic_complexity := cyclomatic_complexity
    documentation_coverage := round2 doc_coverage
    version := version
    previous_version_id := previous_version_id
    change_log := change_log
    user_rating := user_rating
    id := assign_id name version }

/-- One clause of the conjunctive filter predicate compiled by
`find_similar_code`. -/
inductive FilterClause where
  | languageEq (value : String)
  | complexityLevelEq (value : String)
  | userRatingGe (value : ℚ)
  | tagsInclude (value : List String)
deriving DecidableEq

/-- The filter construction of `find_similar_code` (lines 235–246).  Each
guard is a Python truthiness test: `if language:` skips both `None` and the
empty string, `if min_rating:` skips both `None` and `0.0`, and
`if required_tags:` skips both `None` and the empty list. -/
def build_filters (language : Option String) (complexity_level : Option String)
    (min_rating : Option ℚ) (required_tags : Option (List String)) :
    List FilterClause :=
  (match language with
   | some v => if v = "" then [] else [FilterClause.languageEq v]
   | none => []) ++
  (match complexity_level with
   | some v => if v = "" then [] else [FilterClause.complexityLevelEq v]
   | none => []) ++
  (match min_rating with
   | some v => if v = 0 then [] else [FilterClause.userRatingGe v]
   | none => []) ++
  (match required_tags with
   | some v => if v = [] then [] else [FilterClause.tagsInclude v]
   | none => [])

/-- `EnhancedCodeStorage.find_similar_code` (lines 206–254): the first
component is the compiled conjunctive predicate (the `filters` list the
source joins with `" AND "`), the second the returned result list, which the
source always leaves empty (the search itself lives in the external store). -/
def find_similar_code (query : String) (language : Option String)
    (complexity_level : Option String) (min_rating : Option ℚ)
    (required_tags : Option (List String)) :
    List FilterClause × List CodePatternRecord :=
  (build_filters language complexity_level min_rating required_tags, [])

/-! ## Declarative descriptions used to state the claims

The scanners above embed the source's regex calls operationally.  To state
"number of whole-word occurrences anywhere in the text" the way the spec
words it, we also give a position-based declarative count and prove it equal
to the scanner. -/

/-- The left `\b` test at a position of the text: position `0` sees the
character before the scanned region (`prev`), position `j + 1` sees the
character at index `j`. -/
def leftBoundary (s : List Char) (prev : Option Char) : Nat → Bool
  | 0 => boundaryOk prev
  | j + 1 =>
    match s.get? j with
    | some c => !isWordChar c
    | none => false

/-- The right `\b` test at index `j` of the text: end of text or a non-word
character. -/
def rightBoundary (s : List Char) (j : Nat) : Bool :=
  match s.get? j with
  | some c => !isWordChar c
  | none => true

/-- Declarative description of a whole-word occurrence at position `i`: the
keyword is exactly the slice of the text at `[i, i + kw.length)` and both
ends sit on word boundaries. -/
def occursWordAt (kw s : List Char) (prev : Option Char) (i : Nat) : Bool :=
  leftBoundary s prev i &&
    (decide ((s.drop i).take kw.length = kw) && rightBoundary s (i + kw.length))

/-- Declarative whole-word occurrence count: the number of positions of the
text at which the keyword occurs delimited by word boundaries. -/
def wholeWordCount (kw code : String) : Nat :=
  (List.range code.data.length).countP (occursWordAt kw.data code.data none)

/-- A fixed example text with three function definitions and one docstring;
its documentation coverage is the non-terminating decimal 1/3, which the
builder stores rounded. -/
def exampleThreeDefs : String :=
  "def a():\n    \"\"\"d\"\"\"\n    return 0\ndef b():\n    return 1\ndef c():\n    return 2\n"

/-- The Identity Assigner as the spec words it: lowercase the name, replace
every space with an underscore, append an underscore and the version number.
Spec-side description, written as a single character pass, to be compared
with the source-derived derivation inside `store_code_pattern`. -/
def idSpec (name : String) (version : Int) : String :=
  String.mk (name.data.map fun c => if Char.toLower c = ' ' then '_' else Char.toLower c)
    ++ "_" ++ toString version

/-! ## Scanner / declarative-count equivalence -/

/-- `wordAt` is the slice-equality test plus the right boundary test. -/
theorem wordAt_eq (kw : List Char) : ∀ s : List Char,
    wordAt kw s = (decide (s.take kw.length = kw) && rightBoundary s kw.length) := by
  induction kw with
  | nil =>
    intro s
    cases s <;> simp [wordAt, rightBoundary]
  | cons k ks ih =>
    intro s
    cases s with
    | nil => simp [wordAt, rightBoundary]
    | cons c cs =>
      by_cases h : k = c
      · subst h
        simp [wordAt, ih cs, rightBoundary, List.take_succ_cons]
      · simp [wordAt, rightBoundary, List.take_succ_cons, h, Ne.symm h]

/-- Shifting the declarative occurrence test one character into the text. -/
theorem occursWordAt_succ (kw : List Char) (c : Char) (cs : List Char)
    (prev : Option Char) (i : Nat) :
    occursWordAt kw (c :: cs) prev (i + 1) = occursWordAt kw cs (some c) i := by
  unfold occursWordAt
  have h1 : leftBoundary (c :: cs) prev (i + 1) = leftBoundary cs (some c) i := by
    cases i with
    | zero => simp [leftBoundary, boundaryOk]
    | succ j => simp [leftBoundary]
  have h2 : List.drop (i + 1) (c :: cs) = List.drop i cs := List.drop_succ_cons ..
  have h3 : rightBoundary (c :: cs) (i + 1 + kw.length) = rightBoundary cs (i + kw.length) := by
    have : i + 1 + kw.length = (i + kw.length) + 1 := by omega
    rw [this]
    simp [rightBoundary]
  rw [h1, h2, h3]

/-- The declarative occurrence test at position `0` is the scanner's
head test. -/
theorem occursWordAt_zero (kw : List Char) (c : Char) (cs : List Char)
    (prev : Option Char) :
    occursWordAt kw (c :: cs) prev 0 = (boundaryOk prev && wordAt kw (c :: cs)) := by
  unfold occursWordAt
  rw [wordAt_eq]
  simp [leftBoundary]

/-- The left-to-right whole-word scanner counts exactly the positions at
which the declarative occurrence test holds. -/
theorem countWordFrom_eq (kw : List Char) : ∀ (s : List Char) (prev : Option Char),
    countWordFrom kw prev s = (List.range s.length).countP (occursWordAt kw s prev) := by
  intro s
  induction s with
  | nil => intro prev; simp [countWordFrom]
  | cons c cs ih =>
    intro prev
    have hmap : (List.range cs.length).countP (fun i => occursWordAt kw (c :: cs) prev (i + 1)) =
        (List.range cs.length).countP (occursWordAt kw cs (some c)) := by
      apply List.countP_congr
      intro i _
      rw [occursWordAt_succ]
    calc countWordFrom kw prev (c :: cs)
        = (if boundaryOk prev && wordAt kw (c :: cs) then 1 else 0) +
            countWordFrom kw (some c) cs := rfl
      _ = (if occursWordAt kw (c :: cs) prev 0 then 1 else 0) +
            (List.range cs.length).countP (occursWordAt kw cs (some c)) := by
            rw [occursWordAt_zero, ih]
      _ = (List.range (c :: cs).length).countP (occursWordAt kw (c :: cs) prev) := by
            rw [List.length_cons, List.range_succ_eq_map, List.countP_cons, List.countP_map]
            have : ((occursWordAt kw (c :: cs) prev) ∘ Nat.succ) =
                fun i => occursWordAt kw (c :: cs) prev (i + 1) := rfl
            rw [this, hmap]
            omega

/-- The regex call `len(re.findall(r'\bkw\b', code))` embedded by the
scanner equals the declarative whole-word occurrence count. -/
theorem countWordOccurrences_eq_wholeWordCount (kw code : String) :
    countWordOccurrences kw code = wholeWordCount kw code := by
  rw [countWordOccurrences, wholeWordCount, countWordFrom_eq]

/-- Folding the per-keyword counts starting from the base value is the base
value plus the sum of the counts. -/
theorem foldl_add_eq (f : String → Nat) (l : List String) : ∀ n : Nat,
    l.foldl (fun acc kw => acc + f kw) n = n + (l.map f).sum := by
  induction l with
  | nil => intro n; simp
  | cons a l ih =>
    intro n
    rw [List.foldl_cons, ih, List.map_cons, List.sum_cons]
    omega

/-! ## Claims -/

/-- C4: for the "python" tag (case-insensitively), the cyclomatic complexity
is 1 plus the number of whole-word occurrences of each keyword of
{if, elif, else, for, while, with, try, except} anywhere in the text; for
any other language tag it is the constant 1; and the text
`"def f(x):\n if x: return 1\n else: return 0"` with language "python"
yields 3. -/
theorem cyclomatic_complexity_spec (code language : String) :
    (pyLower language = "python" →
      calculate_cyclomatic_complexity code language =
        1 + (control_statements.map fun kw => wholeWordCount kw code).sum) ∧
    (pyLower language ≠ "python" →
      calculate_cyclomatic_complexity code language = 1) ∧
    calculate_cyclomatic_complexity "def f(x):\n if x: return 1\n else: return 0" "python" = 3 := by
  refine ⟨?_, ?_, by decide⟩
  · intro h
    rw [calculate_cyclomatic_complexity, if_pos h, foldl_add_eq]
    simp only [countWordOccurrences_eq_wholeWordCount]
  · intro h
    rw [calculate_cyclomatic_complexity, if_neg h]

/-- Witness for `cyclomatic_complexity_spec` at concrete inputs: the
case-insensitive tag "Python" takes the keyword-counting branch, and the tag
"java" yields the constant 1. -/
theorem cyclomatic_complexity_spec_w :
    calculate_cyclomatic_complexity "while x: pass" "Python" =
      1 + (control_statements.map fun kw => wholeWordCount kw "while x: pass").sum ∧
    calculate_cyclomatic_complexity "while x: pass" "java" = 1 :=
  ⟨(cyclomatic_complexity_spec "while x: pass" "Python").1 (by decide),
   (cyclomatic_complexity_spec "while x: pass" "java").2.1 (by decide)⟩

/-- C8: for every code text and language tag, the computed metrics satisfy
`cyclomaticComplexity ≥ 1` and `0 ≤ documentationCoverage ≤ 1`; a
python-tagged text with zero whole-word control-flow keyword occurrences has
complexity exactly 1. -/
theorem quality_metrics_invariants (code language : String) :
    (1 ≤ calculate_cyclomatic_complexity code language ∧
     0 ≤ calculate_doc_coverage code language ∧
     calculate_doc_coverage code language ≤ 1) ∧
    ((∀ kw ∈ control_statements, wholeWordCount kw code = 0) →
      calculate_cyclomatic_complexity code "python" = 1) := by
  constructor
  · refine ⟨?_, ?_, ?_⟩
    · rw [calculate_cyclomatic_complexity]
      split
      · rw [foldl_add_eq]; omega
      · omega
    · rw [calculate_doc_coverage]
      split
      · split
        · norm_num
        · exact le_min (by norm_num)
            (div_nonneg (Nat.cast_nonneg _) (Nat.cast_nonneg _))
      · norm_num
    · rw [calculate_doc_coverage]
      split
      · split
        · norm_num
        · exact min_le_left _ _
      · norm_num
  · intro h
    rw [calculate_cyclomatic_complexity, if_pos (by decide), foldl_add_eq]
    have hz : (control_statements.map fun kw => countWordOccurrences kw code).sum = 0 := by
      apply List.sum_eq_zero
      intro x hx
      rcases List.mem_map.mp hx with ⟨kw, hkw, hkx⟩
      rw [← hkx, countWordOccurrences_eq_wholeWordCount]
      exact h kw hkw
    rw [hz]

/-- Witness for `quality_metrics_invariants`: the text `"x = 1"` contains no
control-flow keyword, so its python complexity is exactly 1; the invariants
hold at the tag "go" too. -/
theorem quality_metrics_invariants_w :
    (1 ≤ calculate_cyclomatic_complexity "x = 1" "go" ∧
     0 ≤ calculate_doc_coverage "x = 1" "go" ∧
     calculate_doc_coverage "x = 1" "go" ≤ 1) ∧
    calculate_cyclomatic_complexity "x = 1" "python" = 1 :=
  ⟨(quality_metrics_invariants "x = 1" "go").1,
   (quality_metrics_invariants "x = 1" "go").2 (by decide)⟩

/-- C5: the complexity classifier keeps a non-null caller override verbatim
regardless of the score; otherwise score ≤ 5 is "simple", 6–10 is
"intermediate" and > 10 is "advanced" (so 5 → simple, 6 → intermediate,
10 → intermediate, 11 → advanced); and `store_code_pattern` uses exactly
this classification on the computed complexity. -/
theorem complexity_classifier_spec (score : Nat) (override : Option String) :
    (∀ lvl, override = some lvl → resolveComplexityLevel override score = lvl) ∧
    (override = none →
      ((score ≤ 5 → resolveComplexityLevel override score = "simple") ∧
       (6 ≤ score → score ≤ 10 → resolveComplexityLevel override score = "intermediate") ∧
       (10 < score → resolveComplexityLevel override score = "advanced"))) ∧
    (resolveComplexityLevel none 5 = "simple" ∧
     resolveComplexityLevel none 6 = "intermediate" ∧
     resolveComplexityLevel none 10 = "intermediate" ∧
     resolveComplexityLevel none 11 = "advanced") ∧
    (∀ name code expl lang tags deps ur v pv ch,
      (store_code_pattern name code expl lang tags override deps ur v pv ch).complexity_level =
        resolveComplexityLevel override (calculate_cyclomatic_complexity code lang)) := by
  refine ⟨?_, ?_, ⟨by decide, by decide, by decide, by decide⟩, ?_⟩
  · intro lvl h
    rw [h, resolveComplexityLevel]
  · intro h
    subst h
    refine ⟨?_, ?_, ?_⟩
    · intro h5
      rw [resolveComplexityLevel, if_pos h5]
    · intro h6 h10
      rw [resolveComplexityLevel, if_neg (by omega), if_pos h10]
    · intro h10
      rw [resolveComplexityLevel, if_neg (by omega), if_neg (by omega)]
  · intro name code expl lang tags deps ur v pv ch
    rfl

/-- Witness for `complexity_classifier_spec`: an override wins at score 2,
and score 7 classifies as "intermediate". -/
theorem complexity_classifier_spec_w :
    resolveComplexityLevel (some "advanced") 2 = "advanced" ∧
    resolveComplexityLevel none 7 = "intermediate" :=
  ⟨(complexity_classifier_spec 2 (some "advanced")).1 "advanced" rfl,
   ((complexity_classifier_spec 7 none).2.1 rfl).2.1 (by decide) (by decide)⟩

/-- The example text has three `def` sites, no `class` site and one
docstring, so its python documentation coverage is exactly 1/3. -/
theorem doc_coverage_exampleThreeDefs :
    calculate_doc_coverage exampleThreeDefs "python" = 1 / 3 := by
  rw [calculate_doc_coverage, if_pos (show pyLower "python" = "python" by rfl),
    if_neg (by decide)]
  have h1 : docstring_count exampleThreeDefs = 1 := by decide
  have h2 : total_definitions exampleThreeDefs = 3 := by decide
  rw [h1, h2, min_eq_right (by norm_num)]
  norm_num

/-- Rounding 1/3 to two decimal places, ties to even, gives 33/100. -/
theorem round2_one_third : round2 (1 / 3) = 33 / 100 := by
  rw [round2, roundHalfEven]
  have h : (1 : ℚ) / 3 * 100 = 100 / 3 := by norm_num
  rw [h]
  have hf : ⌊(100 : ℚ) / 3⌋ = 33 := by
    rw [Int.floor_eq_iff]
    norm_num
  rw [hf]
  norm_num

/-- C6: for python-tagged text, documentation coverage is 1 when the text
has zero definition sites and `min(1, docstringCount / definitionCount)`
otherwise; for any other language tag it is the constant 0.5.  The example
text with three definitions and one docstring has coverage 1/3. -/
theorem doc_coverage_spec (code language : String) :
    (pyLower language = "python" → total_definitions code = 0 →
      calculate_doc_coverage code language = 1) ∧
    (pyLower language = "python" → total_definitions code ≠ 0 →
      calculate_doc_coverage code language =
        min 1 ((docstring_count code : ℚ) / (total_definitions code : ℚ))) ∧
    (pyLower language ≠ "python" → calculate_doc_coverage code language = 1 / 2) ∧
    calculate_doc_coverage exampleThreeDefs "python" = 1 / 3 := by
  refine ⟨?_, ?_, ?_, doc_coverage_exampleThreeDefs⟩
  · intro hlang hzero
    rw [calculate_doc_coverage, if_pos hlang, if_pos hzero]
  · intro hlang hnz
    rw [calculate_doc_coverage, if_pos hlang, if_neg hnz]
  · intro hlang
    rw [calculate_doc_coverage, if_neg hlang]

/-- Witness for `doc_coverage_spec`: a text without definitions has coverage
1, the example text takes the `min` branch, and the "rust" tag yields 0.5. -/
theorem doc_coverage_spec_w :
    calculate_doc_coverage "x = 1" "python" = 1 ∧
    calculate_doc_coverage exampleThreeDefs "python" =
      min 1 ((docstring_count exampleThreeDefs : ℚ) / (total_definitions exampleThreeDefs : ℚ)) ∧
    calculate_doc_coverage "x = 1" "rust" = 1 / 2 :=
  ⟨(doc_coverage_spec "x = 1" "python").1 (by decide) (by decide),
   (doc_coverage_spec exampleThreeDefs "python").2.1 (by decide) (by decide),
   (doc_coverage_spec "x = 1" "rust").2.2.1 (by decide)⟩

/-- C7: the id of every emitted record is obtained by lowercasing the name,
replacing every space with an underscore and appending an underscore and the
version number; the derivation depends on nothing else, so two calls with
the same (name, version) yield identical ids. -/
theorem identity_assigner_spec (name : String) (version : Int)
    (code₁ expl₁ lang₁ : String) (tags₁ : Option (List String)) (cl₁ : Option String)
    (deps₁ : Option (List String)) (ur₁ : Option ℚ) (pv₁ ch₁ : Option String)
    (code₂ expl₂ lang₂ : String) (tags₂ : Option (List String)) (cl₂ : Option String)
    (deps₂ : Option (List String)) (ur₂ : Option ℚ) (pv₂ ch₂ : Option String) :
    (store_code_pattern name code₁ expl₁ lang₁ tags₁ cl₁ deps₁ ur₁ version pv₁ ch₁).id =
      idSpec name version ∧
    (store_code_pattern name code₁ expl₁ lang₁ tags₁ cl₁ deps₁ ur₁ version pv₁ ch₁).id =
      (store_code_pattern name code₂ expl₂ lang₂ tags₂ cl₂ deps₂ ur₂ version pv₂ ch₂).id := by
  constructor
  · show assign_id name version = idSpec name version
    rw [assign_id, idSpec, replaceSpaceWithUnderscore, pyLower, List.map_map]
    have hfun : ∀ c : Char,
        ((fun c => if c == ' ' then '_' else c) ∘ Char.toLower) c =
          (fun c => if Char.toLower c = ' ' then '_' else Char.toLower c) c := by
      intro c
      by_cases h : Char.toLower c = ' ' <;> simp [Function.comp, h]
    rw [funext hfun]
  · rfl

/-- C9: the stored `documentation_coverage` is the analyzer's coverage
rounded to two decimal places, while the stored `cyclomatic_complexity` is
the analyzer's output unmodified; on the example text the rounded value
33/100 differs from the exact coverage 1/3. -/
theorem stored_metrics_rounding
    (name code expl lang : String) (tags : Option (List String)) (cl : Option String)
    (deps : Option (List String)) (ur : Option ℚ) (v : Int) (pv ch : Option String) :
    (store_code_pattern name code expl lang tags cl deps ur v pv ch).documentation_coverage =
      round2 (calculate_doc_coverage code lang) ∧
    (store_code_pattern name code expl lang tags cl deps ur v pv ch).cyclomatic_complexity =
      calculate_cyclomatic_complexity code lang ∧
    round2 (calculate_doc_coverage exampleThreeDefs "python") ≠
      calculate_doc_coverage exampleThreeDefs "python" := by
  refine ⟨rfl, rfl, ?_⟩
  rw [doc_coverage_exampleThreeDefs, round2_one_third]
  norm_num

/-- C10: when `tags` (resp. `dependencies`) is omitted/None, the emitted
record's field is the empty list, and in general the stored field is the
supplied list with None defaulted to the empty list — always a list, never
null. -/
theorem omitted_collections_default_empty
    (name code expl lang : String) (cl : Option String) (ur : Option ℚ)
    (v : Int) (pv ch : Option String) :
    (store_code_pattern name code expl lang none cl none ur v pv ch).tags = [] ∧
    (store_code_pattern name code expl lang none cl none ur v pv ch).dependencies = [] ∧
    ∀ ts ds : Option (List String),
      (store_code_pattern name code expl lang ts cl ds ur v pv ch).tags = ts.getD [] ∧
      (store_code_pattern name code expl lang ts cl ds ur v pv ch).dependencies = ds.getD [] :=
  ⟨rfl, rfl, fun ts ds => ⟨rfl, rfl⟩⟩

/-- C1, counterexample: submitting version 1 with a non-null
`previous_version_id` does not fail — `store_code_pattern` emits a record
carrying the pointer verbatim; likewise version 2 is emitted although no
version 1 exists anywhere (the function consults no store at all). -/
theorem store_version_chain_cex :
    (store_code_pattern "a" "" "" "python" none none none none 1 (some "x") none).previous_version_id
        = some "x" ∧
    (store_code_pattern "a" "" "" "python" none none none none 1 (some "x") none).version = 1 ∧
    (store_code_pattern "b" "" "" "python" none none none none 2 none none).version = 2 :=
  ⟨rfl, rfl, rfl⟩

/-- C1, amended: `store_code_pattern` performs no version-chain validation
and never fails — for every version and `previous_version_id` (including
version 1 with a non-null pointer, and version > 1 with a missing or absent
predecessor) it emits a record with both values stored verbatim. -/
theorem store_no_version_chain_validation
    (name code expl lang : String) (tags : Option (List String)) (cl : Option String)
    (deps : Option (List String)) (ur : Option ℚ) (v : Int) (pv ch : Option String) :
    (store_code_pattern name code expl lang tags cl deps ur v pv ch).version = v ∧
    (store_code_pattern name code expl lang tags cl deps ur v pv ch).previous_version_id = pv ∧
    (store_code_pattern name code expl lang tags cl deps ur v pv ch).change_log = ch :=
  ⟨rfl, rfl, rfl⟩

/-- C2, counterexample: the out-of-range ratings -0.1 and 5.1 are not
rejected — `store_code_pattern` emits records storing them verbatim, so no
`InvalidRating` failure exists in the code. -/
theorem store_rating_cex :
    (store_code_pattern "a" "" "" "python" none none none (some (-1/10)) 1 none none).user_rating
        = some (-1/10) ∧
    (store_code_pattern "a" "" "" "python" none none none (some (51/10)) 1 none none).user_rating
        = some (51/10) :=
  ⟨rfl, rfl⟩

/-- C2, amended: a supplied `user_rating` is stored verbatim in the emitted
record whether or not it lies in [0.0, 5.0] — in-range values (including the
boundary values 0.0 and 5.0) are accepted and stored, and out-of-range
values are accepted and stored as well; no rating validation occurs and a
record is always emitted. -/
theorem store_rating_stored_verbatim
    (name code expl lang : String) (tags : Option (List String)) (cl : Option String)
    (deps : Option (List String)) (ur : Option ℚ) (v : Int) (pv ch : Option String) :
    (store_code_pattern name code expl lang tags cl deps ur v pv ch).user_rating = ur :=
  rfl

/-- A `languageEq` clause is compiled exactly when `language` is supplied
and non-empty (Python truthiness). -/
theorem mem_build_filters_languageEq (l c : Option String) (r : Option ℚ)
    (t : Option (List String)) (v : String) :
    FilterClause.languageEq v ∈ build_filters l c r t ↔ l = some v ∧ v ≠ "" := by
  cases l <;> cases c <;> cases r <;> cases t <;>
    simp [build_filters] <;> aesop

/-- A `complexityLevelEq` clause is compiled exactly when `complexity_level`
is supplied and non-empty (Python truthiness). -/
theorem mem_build_filters_complexityLevelEq (l c : Option String) (r : Option ℚ)
    (t : Option (List String)) (v : String) :
    FilterClause.complexityLevelEq v ∈ build_filters l c r t ↔ c = some v ∧ v ≠ "" := by
  cases l <;> cases c <;> cases r <;> cases t <;>
    simp [build_filters] <;> aesop

/-- A `userRatingGe` clause is compiled exactly when `min_rating` is
supplied and non-zero (Python truthiness: `0.0` is falsy). -/
theorem mem_build_filters_userRatingGe (l c : Option String) (r : Option ℚ)
    (t : Option (List String)) (v : ℚ) :
    FilterClause.userRatingGe v ∈ build_filters l c r t ↔ r = some v ∧ v ≠ 0 := by
  cases l <;> cases c <;> cases r <;> cases t <;>
    simp [build_filters] <;> aesop

/-- A `tagsInclude` clause is compiled exactly when `required_tags` is
supplied and non-empty (Python truthiness: `[]` is falsy). -/
theorem mem_build_filters_tagsInclude (l c : Option String) (r : Option ℚ)
    (t : Option (List String)) (v : List String) :
    FilterClause.tagsInclude v ∈ build_filters l c r t ↔ t = some v ∧ v ≠ [] := by
  cases l <;> cases c <;> cases r <;> cases t <;>
    simp [build_filters] <;> aesop

/-- The compiled predicate never holds two copies of a clause. -/
theorem build_filters_nodup (l c : Option String) (r : Option ℚ)
    (t : Option (List String)) :
    (build_filters l c r t).Nodup := by
  cases l <;> cases c <;> cases r <;> cases t <;>
    simp [build_filters] <;> aesop

/-- C3, counterexample: with `min_rating = 0.0` supplied, the compiled
predicate of `find_similar_code` holds no clause at all — in particular no
`userRating >= 0.0` clause — although the parameter was supplied. -/
theorem filter_zero_min_rating_cex :
    (find_similar_code "q" none none (some 0) none).1 = [] ∧
    FilterClause.userRatingGe 0 ∉ (find_similar_code "q" none none (some 0) none).1 := by
  constructor
  · decide
  · decide

/-- C3, amended: the compiled predicate of `find_similar_code` is the
conjunction of at most one clause per constraint, and a clause is present
exactly when its parameter is supplied AND truthy in the Python sense: a
`userRating >= minRating` clause appears iff `min_rating` is supplied and
non-zero (so `min_rating = 0.0` compiles to no clause), the tags clause
appears iff `required_tags` is supplied and non-empty, and the language and
complexity-level clauses appear iff their value is supplied and non-empty. -/
theorem retrieval_filter_compiler_spec (query : String) (l c : Option String)
    (r : Option ℚ) (t : Option (List String)) :
    ((find_similar_code query l c r t).1 = build_filters l c r t) ∧
    (find_similar_code query l c r t).1.Nodup ∧
    (∀ v, FilterClause.languageEq v ∈ (find_similar_code query l c r t).1 ↔
      l = some v ∧ v ≠ "") ∧
    (∀ v, FilterClause.complexityLevelEq v ∈ (find_similar_code query l c r t).1 ↔
      c = some v ∧ v ≠ "") ∧
    (∀ v, FilterClause.userRatingGe v ∈ (find_similar_code query l c r t).1 ↔
      r = some v ∧ v ≠ 0) ∧
    (∀ v, FilterClause.tagsInclude v ∈ (find_similar_code query l c r t).1 ↔
      t = some v ∧ v ≠ []) :=
  ⟨rfl, build_filters_nodup l c r t,
   fun v => mem_build_filters_languageEq l c r t v,
   fun v => mem_build_filters_complexityLevelEq l c r t v,
   fun v => mem_build_filters_userRatingGe l c r t v,
   fun v => mem_build_filters_tagsInclude l c r t v⟩

/-- Witness for `retrieval_filter_compiler_spec`: the spec's end-to-end
query compiles a rating clause for `min_rating = 4.0` and a tags clause for
`["algorithm"]`. -/
theorem retrieval_filter_compiler_spec_w :
    FilterClause.userRatingGe 4 ∈
      (find_similar_code "q" (some "python") none (some 4) (some ["algorithm"])).1 ∧
    FilterClause.tagsInclude ["algorithm"] ∈
      (find_similar_code "q" (some "python") none (some 4) (some ["algorithm"])).1 :=
  ⟨((retrieval_filter_compiler_spec "q" (some "python") none (some 4)
        (some ["algorithm"])).2.2.2.2.1 4).mpr ⟨rfl, by norm_num⟩,
   ((retrieval_filter_compiler_spec "q" (some "python") none (some 4)
        (some ["algorithm"])).2.2.2.2.2 ["algorithm"]).mpr ⟨rfl, by simp⟩⟩

end CoderDb
